import Mathlib

/-!
Verification of the `opencode-quota` toast formatter and pricing cache.

Part 1 models the formatting helpers of the toast-format module
(`formatTokenCount`, `clampInt`, `padRight`, `padLeft`,
`formatResetCountdown`, `bar`, `addEntry` / `formatQuotaRows`,
`shortenModelName`).  JavaScript strings are modelled as `List Char`
and JavaScript numbers as `JSNum` (NaN, the two infinities, or an
exact rational; the formatter never performs arithmetic whose
double-precision rounding could change any of the stated results,
since all clamped percentages are small integers).

Part 2 models `modelsdev-pricing.ts`: JSON values, the snapshot schema
check, staleness, normalization of the remote payload, the single-flight
refresh and the `ensureLoaded` / `ensureLoadedWithConfig` accessors.
-/

/-- JavaScript strings, modelled as lists of characters. -/
abbrev Str := List Char

/-- JavaScript numbers: NaN, +Infinity, -Infinity, or a finite value
(modelled exactly as a rational). -/
inductive JSNum where
  | nan : JSNum
  | posInf : JSNum
  | negInf : JSNum
  | fin : ℚ → JSNum
deriving DecidableEq

/-- `Math.trunc` on a rational: round toward zero. -/
def truncQ (q : ℚ) : ℤ := if 0 ≤ q then ⌊q⌋ else ⌈q⌉

/-- `Math.round` on a rational: round half toward positive infinity. -/
def roundQ (q : ℚ) : ℤ := ⌊q + 1/2⌋

/-- `Math.trunc` (keeps NaN and infinities). -/
def jstrunc : JSNum → JSNum
  | .nan => .nan
  | .posInf => .posInf
  | .negInf => .negInf
  | .fin q => .fin (truncQ q)

/-- `Math.round` (keeps NaN and infinities). -/
def jround : JSNum → JSNum
  | .nan => .nan
  | .posInf => .posInf
  | .negInf => .negInf
  | .fin q => .fin (roundQ q)

/-- `Math.min` of two values: NaN-propagating minimum. -/
def jmin : JSNum → JSNum → JSNum
  | .nan, _ => .nan
  | _, .nan => .nan
  | .negInf, _ => .negInf
  | _, .negInf => .negInf
  | .posInf, b => b
  | a, .posInf => a
  | .fin a, .fin b => .fin (min a b)

/-- `Math.max` of two values: NaN-propagating maximum. -/
def jmax : JSNum → JSNum → JSNum
  | .nan, _ => .nan
  | _, .nan => .nan
  | .posInf, _ => .posInf
  | _, .posInf => .posInf
  | .negInf, b => b
  | a, .negInf => a
  | .fin a, .fin b => .fin (max a b)

/-- JavaScript subtraction. -/
def jsub : JSNum → JSNum → JSNum
  | .nan, _ => .nan
  | _, .nan => .nan
  | .posInf, .posInf => .nan
  | .posInf, _ => .posInf
  | .negInf, .negInf => .nan
  | .negInf, _ => .negInf
  | .fin _, .posInf => .negInf
  | .fin _, .negInf => .posInf
  | .fin a, .fin b => .fin (a - b)

/-- JavaScript multiplication. -/
def jmul : JSNum → JSNum → JSNum
  | .nan, _ => .nan
  | _, .nan => .nan
  | .posInf, .posInf => .posInf
  | .posInf, .negInf => .negInf
  | .negInf, .posInf => .negInf
  | .negInf, .negInf => .posInf
  | .posInf, .fin b => if b = 0 then .nan else if 0 < b then .posInf else .negInf
  | .fin a, .posInf => if a = 0 then .nan else if 0 < a then .posInf else .negInf
  | .negInf, .fin b => if b = 0 then .nan else if 0 < b then .negInf else .posInf
  | .fin a, .negInf => if a = 0 then .nan else if 0 < a then .negInf else .posInf
  | .fin a, .fin b => .fin (a * b)

/-- JavaScript division (ignoring the sign of negative zero). -/
def jdiv : JSNum → JSNum → JSNum
  | .nan, _ => .nan
  | _, .nan => .nan
  | .posInf, .posInf => .nan
  | .posInf, .negInf => .nan
  | .negInf, .posInf => .nan
  | .negInf, .negInf => .nan
  | .posInf, .fin b => if 0 ≤ b then .posInf else .negInf
  | .negInf, .fin b => if 0 ≤ b then .negInf else .posInf
  | .fin _, .posInf => .fin 0
  | .fin _, .negInf => .fin 0
  | .fin a, .fin b =>
      if b = 0 then (if a = 0 then .nan else if 0 < a then .posInf else .negInf)
      else .fin (a / b)

/-- JavaScript strict equality test against `0` (`remaining === 0`);
`NaN === 0` and `Infinity === 0` are false. -/
def jsStrictEqZero : JSNum → Bool
  | .fin q => decide (q = 0)
  | _ => false

/-- `Number.isFinite`. -/
def jsIsFinite : JSNum → Bool
  | .fin _ => true
  | _ => false

/-- Decimal digits of an integer. -/
def intStr (i : ℤ) : Str := (toString i).data

/-- Decimal digits of a natural number. -/
def natStr (n : ℕ) : Str := (toString n).data

/-- Template-literal conversion `${n}` of a JavaScript number.  Every
call site in this development applies it to NaN or to integer-valued
numbers (the outputs of `clampInt`), where the decimal representations
below agree with JavaScript; the non-integral branch falls back to a
`num/den` rendering and is unreachable from those call sites. -/
def numToStr : JSNum → Str
  | .nan => "NaN".data
  | .posInf => "Infinity".data
  | .negInf => "-Infinity".data
  | .fin q => if q.den = 1 then intStr q.num else intStr q.num ++ "/".data ++ natStr q.den

/-- The repetition count used by `String.prototype.repeat`
(`ToIntegerOrInfinity`): NaN maps to 0.  A negative or infinite
count would throw in JavaScript; those cases are unreachable from
`bar` (whose counts lie in `[0, width]` or are NaN) and map to 0. -/
def jsRepeatCount : JSNum → ℕ
  | .nan => 0
  | .posInf => 0
  | .negInf => 0
  | .fin q => (truncQ q).toNat

/-- `"c".repeat(n)` for a JavaScript count. -/
def jsRepeat (c : Char) (n : JSNum) : Str := List.replicate (jsRepeatCount n) c

/-- `String.prototype.slice(start, stop)`: negative indices are relative
to the end, both indices are clamped into `[0, length]`. -/
def jsSlice (s : Str) (start stop : ℤ) : Str :=
  let len : ℤ := s.length
  let st := if start < 0 then max (len + start) 0 else min start len
  let en := if stop < 0 then max (len + stop) 0 else min stop len
  if st < en then (s.drop st.toNat).take (en - st).toNat else []

/-- `String.prototype.slice(start)` with one argument: stop defaults to
the length. -/
def jsSliceFrom (s : Str) (start : ℤ) : Str := jsSlice s start s.length

/-- `clampInt(n, min, max) = Math.max(min, Math.min(max, Math.trunc(n)))`. -/
def clampInt (n : JSNum) (lo hi : ℚ) : JSNum := jmax (.fin lo) (jmin (.fin hi) (jstrunc n))

/-- `padRight(str, width)`: truncate to the first `width` characters, or
pad with spaces on the right. -/
def padRight (str : Str) (width : ℤ) : Str :=
  if (str.length : ℤ) ≥ width then jsSlice str 0 width
  else str ++ List.replicate (width - str.length).toNat ' '

/-- `padLeft(str, width)`: truncate to the last `width` characters, or
pad with spaces on the left. -/
def padLeft (str : Str) (width : ℤ) : Str :=
  if (str.length : ℤ) ≥ width then jsSliceFrom str ((str.length : ℤ) - width)
  else List.replicate (width - str.length).toNat ' ' ++ str

/-- Ambient JavaScript context for the formatter: the current time
(`Date.now()`, in milliseconds) and date-string parsing
(`new Date(iso).getTime()`, which yields NaN on unparseable input). -/
structure JsCtx where
  now : ℚ
  parseDate : Str → JSNum

/-- Decimal model of `Number.prototype.toFixed(d)` for non-negative
inputs: round half up to `d` decimal places.  (Used only by the
session-token summary, which no verified claim depends on.) -/
def qToFixed (q : ℚ) (d : ℕ) : Str :=
  let n : ℤ := ⌊q * (10 : ℚ) ^ d + 1/2⌋
  if d = 0 then intStr n
  else
    let frac := (n % (10 : ℤ) ^ d).toNat
    let fs := natStr frac
    intStr (n / (10 : ℤ) ^ d) ++ ['.'] ++ List.replicate (d - fs.length) '0' ++ fs

/-- `formatTokenCount`: format a token count with K/M suffix. -/
def formatTokenCount (count : ℚ) : Str :=
  if count ≥ 1000000 then qToFixed (count / 1000000) 1 ++ ['M']
  else if count ≥ 10000 then qToFixed (count / 1000) 0 ++ ['K']
  else if count ≥ 1000 then qToFixed (count / 1000) 1 ++ ['K']
  else numToStr (.fin count)

/-- `formatResetCountdown(iso)`: `"-"` when `iso` is undefined or the
empty string (both falsy); `"reset"` when the difference to now is
non-finite or non-positive; otherwise a `"Xd Yh"` / `"Xh Ym"` rendering. -/
def formatResetCountdown (ctx : JsCtx) (iso : Option Str) : Str :=
  match iso with
  | none => "-".data
  | some s =>
    if s = [] then "-".data
    else
      match jsub (ctx.parseDate s) (.fin ctx.now) with
      | .fin d =>
        if d ≤ 0 then "reset".data
        else
          let diffMinutes : ℤ := ⌊d / 60000⌋
          let days := diffMinutes / 1440
          let hours := (diffMinutes % 1440) / 60
          let minutes := diffMinutes % 60
          if 0 < days then intStr days ++ "d ".data ++ intStr hours ++ "h".data
          else intStr hours ++ "h ".data ++ intStr minutes ++ "m".data
      | _ => "reset".data

/-- `bar(percentRemaining, width)`: clamp, compute the filled count by
rounding, and concatenate filled and empty glyphs. -/
def bar (percentRemaining : JSNum) (width : ℤ) : Str :=
  let p := clampInt percentRemaining 0 100
  let filled := jround (jmul (jdiv p (.fin 100)) (.fin (width : ℚ)))
  let empty := jsub (.fin (width : ℚ)) filled
  jsRepeat '█' filled ++ jsRepeat '░' empty

/-- Layout breakpoints (the `layout` parameter of `formatQuotaRows`). -/
structure Layout where
  maxWidth : ℤ
  narrowAt : ℤ
  tinyAt : ℤ
deriving DecidableEq

/-- The default layout `{ maxWidth: 50, narrowAt: 42, tinyAt: 32 }`. -/
def defaultLayout : Layout := ⟨50, 42, 32⟩

/-- One provider's remaining-quota reading (`QuotaToastEntry`). -/
structure QuotaToastEntry where
  name : Str
  percentRemaining : JSNum
  resetTimeIso : Option Str

/-- A failed provider query (`QuotaToastError`). -/
structure QuotaToastError where
  label : Str
  message : Str

/-- Per-model token summary (`SessionTokenModel`). -/
structure SessionTokenModel where
  modelID : Str
  input : ℚ
  output : ℚ

/-- Session token data (`SessionTokensData`). -/
structure SessionTokensData where
  models : List SessionTokenModel
  totalInput : ℚ
  totalOutput : ℚ

/-- The two-space separator constant. -/
def sep : Str := "  ".data

/-- `barWidth = Math.max(10, maxWidth - separator.length - percentCol)`. -/
def barWidth (maxWidth : ℤ) : ℤ := max 10 (maxWidth - 2 - 4)

/-- The `addEntry` closure of `formatQuotaRows`, returning the lines it
pushes for one entry.  `remaining === 0` gates the countdown; tiny mode
emits one hard-truncated line, non-tiny mode a name/time line truncated
to `barWidth` and a bar line of `barWidth` glyphs plus the percent cell. -/
def addEntry (ctx : JsCtx) (layout : Layout) (name : Str) (resetIso : Option Str)
    (remaining : JSNum) : List Str :=
  let maxWidth := layout.maxWidth
  let isTiny := maxWidth ≤ layout.tinyAt
  let isNarrow := ¬ isTiny ∧ maxWidth ≤ layout.narrowAt
  let percentCol : ℤ := 4
  let timeCol : ℤ := if isTiny then 6 else if isNarrow then 7 else 7
  let bw := barWidth maxWidth
  let timeStr := if jsStrictEqZero remaining then formatResetCountdown ctx resetIso else []
  let percentCell := padLeft (numToStr (clampInt remaining 0 100) ++ "%".data) percentCol
  if isTiny then
    let tinyNameCol := maxWidth - 2 - timeCol - 2 - percentCol
    let line := padRight name tinyNameCol ++ sep ++ padLeft timeStr timeCol ++ sep ++ percentCell
    [jsSlice line 0 maxWidth]
  else
    let timeWidth := max (timeStr.length : ℤ) timeCol
    let nameWidth := max 1 (bw - 2 - timeWidth)
    let timeLine := padRight name nameWidth ++ sep ++ padLeft timeStr timeWidth
    let barLine := bar remaining bw ++ sep ++ percentCell
    [jsSlice timeLine 0 bw, barLine]

/-- `shortenModelName(name, maxLen)`: strip a case-insensitive
`antigravity-` prefix and `-thinking` / `-preview` suffixes, then
truncate with an ellipsis if still too long. -/
def stripHeadCI (pre : Str) (s : Str) : Str :=
  if (s.take pre.length).map Char.toLower = pre.map Char.toLower then s.drop pre.length else s

/-- Case-insensitively strip a trailing pattern, if present. -/
def stripTailCI (suf : Str) (s : Str) : Str :=
  if suf.length ≤ s.length ∧ (s.drop (s.length - suf.length)).map Char.toLower = suf.map Char.toLower
  then s.take (s.length - suf.length) else s

/-- `shortenModelName` from the toast-format module. -/
def shortenModelName (name : Str) (maxLen : ℕ) : Str :=
  if name.length ≤ maxLen then name
  else
    let s := stripTailCI "-preview".data (stripTailCI "-thinking".data (stripHeadCI "antigravity-".data name))
    if s.length ≤ maxLen then s
    else s.take (maxLen - 1) ++ ['…']

/-- Join lines with `"\n"`. -/
def joinLines (lines : List Str) : Str := List.intercalate "\n".data lines

/-- The classic-style body of `formatQuotaRows` (the `"grouped"` style
delegates to a separate module that is outside this repository's core
and is not modelled).  Entry lines, then error lines, then the optional
session-token block. -/
def formatQuotaRows (ctx : JsCtx) (layoutArg : Option Layout)
    (entries : List QuotaToastEntry) (errors : List QuotaToastError)
    (sessionTokens : Option SessionTokensData) : Str :=
  let layout := layoutArg.getD ⟨50, 42, 32⟩
  let lines := entries.foldl
    (fun ls e => ls ++ addEntry ctx layout e.name e.resetTimeIso e.percentRemaining) []
  let lines := lines ++ errors.map (fun e => e.label ++ ": ".data ++ e.message)
  let lines :=
    match sessionTokens with
    | some tok =>
      if 0 < tok.models.length then
        (if 0 < lines.length then lines ++ [[]] else lines) ++ ["Session Tokens".data] ++
          tok.models.map (fun m =>
            "  ".data ++ padRight (shortenModelName m.modelID 20) 20 ++ "  ".data ++
              padLeft (formatTokenCount m.input) 6 ++ " in  ".data ++
              padLeft (formatTokenCount m.output) 6 ++ " out".data)
      else lines
    | none => lines
  joinLines lines

/-- JavaScript values as seen by the pricing module after `JSON.parse`:
`undef` stands for the `undefined` produced by a missing property.
Object fields are kept in insertion order. -/
inductive Json where
  | undefined : Json
  | null : Json
  | bool : Bool → Json
  | num : ℚ → Json
  | str : String → Json
  | arr : List Json → Json
  | obj : List (String × Json) → Json

/-- Property access `j[k]`: the first binding of `k` in an object,
`undefined` otherwise.  (Access on a primitive is never exercised on a
value that would throw in the source.) -/
def jsGet (j : Json) (k : String) : Json :=
  match j with
  | .obj fields => (List.lookup k fields).getD .undefined
  | _ => .undefined

/-- `isRecord(value)`: a non-null, non-array object. -/
def isRecord : Json → Bool
  | .obj _ => true
  | _ => false

/-- `isSnapshot(value)`: the structural schema check for a pricing
snapshot. -/
def isSnapshot (j : Json) : Bool :=
  isRecord j &&
  (let meta := jsGet j "_meta"
   let providers := jsGet j "providers"
   isRecord meta && isRecord providers &&
   (match jsGet meta "source" with | .str _ => true | _ => false) &&
   (match jsGet meta "generatedAt" with | .num _ => true | _ => false) &&
   (match jsGet meta "providers" with | .arr _ => true | _ => false) &&
   (match jsGet meta "units" with | .str _ => true | _ => false))

/-- `MODELSDEV_API_URL`. -/
def MODELSDEV_API_URL : String := "https://models.dev/api.json"

/-- `MODELSDEV_CACHE_TTL_MS = 24 * 60 * 60 * 1000`. -/
def MODELSDEV_CACHE_TTL_MS : ℚ := 24 * 60 * 60 * 1000

/-- `PROVIDER_ALLOWLIST`. -/
def PROVIDER_ALLOWLIST : List String := ["anthropic", "google", "moonshotai", "openai", "zai"]

/-- `shouldRefresh(snapshot, sourceUrl)`: absent snapshot, non-numeric
`generatedAt`, a recorded source different from `sourceUrl`, or an age
above the TTL. -/
def shouldRefresh (snapshot : Option Json) (sourceUrl : String) (now : ℚ) : Bool :=
  match snapshot with
  | none => true
  | some s =>
    match jsGet (jsGet s "_meta") "generatedAt" with
    | .num g =>
      match jsGet (jsGet s "_meta") "source" with
      | .str src => if src ≠ sourceUrl then true else decide (now - g > MODELSDEV_CACHE_TTL_MS)
      | _ => true
    | _ => true

/-- The cost-bucket extraction for one model value inside
`buildSnapshotFromApi`: requires a record with a `cost` record holding
a numeric `input` or `output`; keys with non-numeric values become
`undefined` fields of the bucket, as in the source's `{ input, output }`. -/
def costBucketsOf (modelValue : Json) : Option Json :=
  if ¬ isRecord modelValue then none
  else
    let cost := jsGet modelValue "cost"
    if ¬ isRecord cost then none
    else
      let input := match jsGet cost "input" with | .num q => some q | _ => none
      let output := match jsGet cost "output" with | .num q => some q | _ => none
      if input = none ∧ output = none then none
      else
        some (.obj [("input", (input.map Json.num).getD .undefined),
                    ("output", (output.map Json.num).getD .undefined)])

/-- The per-provider model map of `buildSnapshotFromApi`. -/
def buildModelCosts (models : List (String × Json)) : List (String × Json) :=
  models.foldl (fun acc mkv =>
    match costBucketsOf mkv.2 with
    | some b => acc ++ [(mkv.1, b)]
    | none => acc) []

/-- `buildSnapshotFromApi(payload, sourceUrl)`: normalize the remote
payload into a snapshot, or `null` when the payload is not a record or
no allow-listed provider yields any model. -/
def buildSnapshotFromApi (payload : Json) (sourceUrl : String) (now : ℚ) : Option Json :=
  match payload with
  | .obj entries =>
    let providers := entries.foldl (fun acc pkv =>
      if ¬ PROVIDER_ALLOWLIST.contains pkv.1 then acc
      else if ¬ isRecord pkv.2 then acc
      else
        match jsGet pkv.2 "models" with
        | .obj mfields =>
          let modelCosts := buildModelCosts mfields
          if 0 < modelCosts.length then acc ++ [(pkv.1, Json.obj modelCosts)] else acc
        | _ => acc) []
    if providers.length = 0 then none
    else
      some (.obj [
        ("_meta", .obj [
          ("source", .str sourceUrl),
          ("generatedAt", .num now),
          ("providers", .arr (providers.map (fun p => Json.str p.1))),
          ("units", .str "USD per 1M tokens")]),
        ("providers", .obj providers)])
  | _ => none

/-- `PricingSourceConfig` (a field holding a non-string value behaves
like an absent field and is modelled as `none`). -/
structure PricingSourceConfig where
  pricingSource : Option String
  pricingUrl : Option String

/-- `resolvePricingConfig(config)`: pick `"bundled"`/`"network"` (default
`"network"`) and the URL; `validateUrl` models `new URL(raw).toString()`,
returning `none` when the constructor would throw. -/
def resolvePricingConfig (validateUrl : String → Option String)
    (config : Option PricingSourceConfig) : String × String :=
  let source :=
    match config with
    | some c =>
      match c.pricingSource with
      | some s => if s = "bundled" ∨ s = "network" then s else "network"
      | none => "network"
    | none => "network"
  let rawUrl :=
    match config with
    | some c => match c.pricingUrl with | some u => u.trim | none => ""
    | none => ""
  if rawUrl ≠ "" then
    match validateUrl rawUrl with
    | some u => (source, u)
    | none => (source, MODELSDEV_API_URL)
  else (source, MODELSDEV_API_URL)

/-- `readSnapshotFromFile`: the environment supplies the already-parsed
JSON of a file (`none` when reading or parsing throws); a value that
fails `isSnapshot` is rejected. -/
def readSnapshotFromFile (contents : Option Json) : Option Json :=
  match contents with
  | some j => if isSnapshot j then some j else none
  | none => none

/-- The environment of the pricing module: parsed contents of the cache
file and of the bundled fallback file, URL validation, and the clock. -/
structure PricingEnv where
  cacheFile : Option Json
  bundledFile : Option Json
  validateUrl : String → Option String
  now : ℚ

/-- The module-level mutable state: `SNAPSHOT`, `REFRESH_IN_FLIGHT`
(as the identity of the in-flight promise), a fresh-promise counter,
and the number of network fetches issued so far. -/
structure PricingState where
  snapshot : Option Json
  inFlight : Option ℕ
  nextId : ℕ
  fetchCount : ℕ

/-- The initial state (module load): no snapshot, no in-flight refresh. -/
def initialPricingState : PricingState := ⟨none, none, 0, 0⟩

/-- The placeholder snapshot installed when both cache and bundled data
are unavailable. -/
def emptyPlaceholder : Json :=
  .obj [
    ("_meta", .obj [
      ("source", .str "(unknown)"),
      ("generatedAt", .num 0),
      ("providers", .arr []),
      ("units", .str "USD per 1M tokens")]),
    ("providers", .obj [])]

/-- `refreshSnapshotFromModelsDev`'s entry: if a refresh is in flight,
return that promise and change nothing; otherwise create a new promise,
record it in `REFRESH_IN_FLIGHT`, and issue the network fetch. -/
def requestRefresh (st : PricingState) : ℕ × PricingState :=
  match st.inFlight with
  | some p => (p, st)
  | none =>
    (st.nextId,
     { st with inFlight := some st.nextId, nextId := st.nextId + 1,
               fetchCount := st.fetchCount + 1 })

/-- How the awaited part of a refresh resolves. -/
inductive FetchOutcome where
  | netError : FetchOutcome
  | notOk : FetchOutcome
  | jsonError : FetchOutcome
  | payload : Json → FetchOutcome

/-- The exceptions a refresh body can raise before its `catch`. -/
inductive RefreshErr where
  | netErr : RefreshErr
  | jsonErr : RefreshErr
  | writeErr : RefreshErr

/-- The `try` block of the refresh body: fetch, check `response.ok`,
parse, normalize, persist, and only then replace `SNAPSHOT`.  `netError`
covers both network failures and the 8-second timeout abort; `writeOk`
tells whether `mkdir`/`writeFile` succeed. -/
def refreshTry (snap : Option Json) (url : String) (now : ℚ)
    (outcome : FetchOutcome) (writeOk : Bool) : Except RefreshErr (Option Json) :=
  match outcome with
  | .netError => .error .netErr
  | .notOk => .ok snap
  | .jsonError => .error .jsonErr
  | .payload j =>
    match buildSnapshotFromApi j url now with
    | none => .ok snap
    | some s => if writeOk then .ok (some s) else .error .writeErr

/-- The refresh body with its `catch {}`: any exception is swallowed and
`SNAPSHOT` keeps its previous value.  The result is the value of
`SNAPSHOT` after the refresh settles. -/
def refreshBody (snap : Option Json) (url : String) (now : ℚ)
    (outcome : FetchOutcome) (writeOk : Bool) : Option Json :=
  match refreshTry snap url now outcome writeOk with
  | .ok s => s
  | .error _ => snap

/-- Completion of the in-flight refresh: apply the body's effect on
`SNAPSHOT` and clear `REFRESH_IN_FLIGHT` (the `finally`). -/
def completeRefresh (st : PricingState) (url : String) (now : ℚ)
    (outcome : FetchOutcome) (writeOk : Bool) : PricingState :=
  match st.inFlight with
  | none => st
  | some _ =>
    { st with snapshot := refreshBody st.snapshot url now outcome writeOk,
              inFlight := none }

/-- `ensureLoaded()`: memoized in `SNAPSHOT`; on first access load the
cache file (falling back to the bundled file, then to the placeholder)
and schedule a background refresh when stale.  Returns the snapshot,
the new state, and the number of file reads this call performed. -/
def ensureLoaded (env : PricingEnv) (st : PricingState) : Json × PricingState × ℕ :=
  match st.snapshot with
  | some s => (s, st, 0)
  | none =>
    let cfg := resolvePricingConfig env.validateUrl none
    if cfg.1 = "bundled" then
      let snap := (readSnapshotFromFile env.bundledFile).getD emptyPlaceholder
      (snap, { st with snapshot := some snap }, 1)
    else
      let loaded :=
        match readSnapshotFromFile env.cacheFile with
        | some c => (c, 1)
        | none => ((readSnapshotFromFile env.bundledFile).getD emptyPlaceholder, 2)
      let st1 := { st with snapshot := some loaded.1 }
      let st2 := if shouldRefresh (some loaded.1) cfg.2 env.now then (requestRefresh st1).2 else st1
      (loaded.1, st2, loaded.2)

/-- `ensureLoadedWithConfig(config)`: without a config, defer to the
memoized `ensureLoaded`; with a config, resolve it and read the bundled
or cache file afresh on every call (no memoization in `SNAPSHOT`). -/
def ensureLoadedWithConfig (env : PricingEnv) (st : PricingState)
    (config : Option PricingSourceConfig) : Json × PricingState × ℕ :=
  match config with
  | none => ensureLoaded env st
  | some cfg =>
    let rc := resolvePricingConfig env.validateUrl (some cfg)
    if rc.1 = "bundled" then
      ((readSnapshotFromFile env.bundledFile).getD emptyPlaceholder, st, 1)
    else
      match readSnapshotFromFile env.cacheFile with
      | some cached =>
        let st' := if shouldRefresh (some cached) rc.2 env.now then (requestRefresh st).2 else st
        (cached, st', 1)
      | none =>
        let fallback := (readSnapshotFromFile env.bundledFile).getD emptyPlaceholder
        let st' := if shouldRefresh (some fallback) rc.2 env.now then (requestRefresh st).2 else st
        (fallback, st', 2)

/-- `lookupCost(providerId, modelId, config)`. -/
def lookupCost (env : PricingEnv) (st : PricingState)
    (providerId modelId : String) (config : Option PricingSourceConfig) :
    Option Json × PricingState :=
  let r := ensureLoadedWithConfig env st config
  match jsGet (jsGet r.1 "providers") providerId with
  | .obj ms =>
    (match List.lookup modelId ms with
     | some c => (some c, r.2.1)
     | none => (none, r.2.1))
  | _ => (none, r.2.1)

/-- The filled-glyph count named by the specification:
`round(clamp(percentRemaining, 0, 100) / 100 * barWidth)`. -/
def barFilled (q : ℚ) (w : ℤ) : ℤ := roundQ ((max 0 (min 100 (truncQ q)) : ℤ) / 100 * w)

/-- Staleness as the specification words it: the snapshot is absent, or
`generatedAt` is not numeric, or `now - generatedAt > 24h` — with no
other condition. -/
def claimStale (snapshot : Option Json) (now : ℚ) : Bool :=
  match snapshot with
  | none => true
  | some s =>
    match jsGet (jsGet s "_meta") "generatedAt" with
    | .num g => decide (now - g > MODELSDEV_CACHE_TTL_MS)
    | _ => true

/-- The extra condition `shouldRefresh` actually checks: the recorded
`_meta.source` differs from the requested source URL (a non-string
source also counts as different). -/
def sourceMismatch (snapshot : Option Json) (sourceUrl : String) : Bool :=
  match snapshot with
  | none => true
  | some s =>
    match jsGet (jsGet s "_meta") "source" with
    | .str src => decide (src ≠ sourceUrl)
    | _ => true

/-- A fixed context for concrete witness evaluations. -/
def ctxA : JsCtx := ⟨0, fun _ => .nan⟩

/-- A structurally valid snapshot, fresh (`generatedAt = 0`) but recorded
from a different source URL than the default remote document. -/
def c1Snap : Json :=
  .obj [
    ("_meta", .obj [
      ("source", .str "https://example.com/pricing.json"),
      ("generatedAt", .num 0),
      ("providers", .arr [.str "anthropic"]),
      ("units", .str "USD per 1M tokens")]),
    ("providers", .obj [("anthropic", .obj [("claude", .obj [("input", .num 3)])])])]

/-- A structurally valid snapshot recorded from the default remote URL,
fresh at time 0. -/
def freshCachedSnap : Json :=
  .obj [
    ("_meta", .obj [
      ("source", .str "https://models.dev/api.json"),
      ("generatedAt", .num 0),
      ("providers", .arr [.str "anthropic"]),
      ("units", .str "USD per 1M tokens")]),
    ("providers", .obj [("anthropic", .obj [("claude", .obj [("input", .num 3),
                                                            ("output", .num 15)])])])]

/-- An environment whose cache file holds `freshCachedSnap` at time 0
(within the TTL window, nothing changes between lookups). -/
def env9 : PricingEnv := ⟨some freshCachedSnap, none, fun _ => none, 0⟩

/-- An explicit `PricingSourceConfig` selecting the network source. -/
def cfg9 : PricingSourceConfig := ⟨some "network", none⟩

/-- The integer that `clampInt(p, 0, 100)` yields for a non-NaN input:
100 for +Infinity, 0 for -Infinity, and the clamped truncation of a
finite value (0 for NaN, where `clampInt` actually yields NaN). -/
def jsClampZ : JSNum → ℤ
  | .nan => 0
  | .posInf => 100
  | .negInf => 0
  | .fin q => max 0 (min 100 (truncQ q))

theorem jsSlice_zero_coe (s : Str) (w : ℕ) : jsSlice s 0 (w : ℤ) = s.take w := by
  unfold jsSlice
  dsimp only
  rw [if_neg (by omega : ¬ ((0:ℤ) < 0)), if_neg (by omega : ¬ ((w:ℤ) < 0))]
  rw [min_eq_left (by exact_mod_cast Nat.zero_le s.length)]
  rcases le_or_lt (w : ℤ) (s.length : ℤ) with h | h
  · rw [min_eq_left h]
    by_cases hw : (0:ℤ) < (w:ℤ)
    · rw [if_pos hw]
      simp only [Int.toNat_zero, List.drop_zero, Int.sub_zero, Int.toNat_natCast]
    · rw [if_neg hw]
      have hw0 : w = 0 := by omega
      simp [hw0]
  · rw [min_eq_right h.le]
    by_cases hl : (0:ℤ) < (s.length : ℤ)
    · rw [if_pos hl]
      simp only [Int.toNat_zero, List.drop_zero, Int.sub_zero, Int.toNat_natCast]
      rw [List.take_of_length_le (le_refl _), List.take_of_length_le (by omega)]
    · rw [if_neg hl]
      have h0 : s.length = 0 := by omega
      rw [List.eq_nil_of_length_eq_zero h0]
      simp

theorem jsSliceFrom_drop (s : Str) (w : ℕ) (h : w ≤ s.length) :
    jsSliceFrom s ((s.length : ℤ) - w) = s.drop (s.length - w) := by
  unfold jsSliceFrom jsSlice
  dsimp only
  rw [if_neg (by omega : ¬ ((s.length : ℤ) - w < 0))]
  rw [min_eq_left (by omega : (s.length : ℤ) - w ≤ (s.length : ℤ))]
  rw [if_neg (by omega : ¬ ((s.length : ℤ) < 0))]
  rw [min_self]
  by_cases hw : (s.length : ℤ) - w < (s.length : ℤ)
  · rw [if_pos hw]
    have h1 : ((s.length : ℤ) - w).toNat = s.length - w := by omega
    have h2 : ((s.length : ℤ) - ((s.length : ℤ) - w)).toNat = w := by omega
    rw [h1, h2]
    refine List.take_of_length_le ?_
    rw [List.length_drop]
    omega
  · rw [if_neg hw]
    have hw0 : w = 0 := by omega
    subst hw0
    rw [List.drop_of_length_le (by omega)]

theorem truncQ_intCast (m : ℤ) : truncQ (m : ℚ) = m := by
  unfold truncQ
  split
  · exact Int.floor_intCast m
  · exact Int.ceil_intCast m

theorem clampInt_fin (q : ℚ) :
    clampInt (.fin q) 0 100 = .fin ((max 0 (min 100 (truncQ q)) : ℤ) : ℚ) := by
  show JSNum.fin (max 0 (min 100 ((truncQ q : ℚ)))) = _
  congr 1
  push_cast
  rfl

theorem bar_fin (q : ℚ) (w : ℤ) :
    bar (.fin q) w = List.replicate (barFilled q w).toNat '█' ++
      List.replicate (w - barFilled q w).toNat '░' := by
  unfold bar
  rw [clampInt_fin]
  dsimp only
  simp only [jdiv]
  rw [if_neg (by norm_num : ¬ (100:ℚ) = 0)]
  simp only [jmul, jround, jsub, jsRepeat, jsRepeatCount]
  rw [← Int.cast_sub, truncQ_intCast, truncQ_intCast]
  rfl

theorem barFilled_nonneg (q : ℚ) (w : ℤ) (hw : 0 ≤ w) : 0 ≤ barFilled q w := by
  unfold barFilled roundQ
  have h1 : (0:ℚ) ≤ ↑(max 0 (min 100 (truncQ q))) / 100 * ↑w := by
    apply mul_nonneg
    · apply div_nonneg _ (by norm_num)
      exact_mod_cast le_max_left 0 _
    · exact_mod_cast hw
  exact Int.floor_nonneg.mpr (by linarith)

theorem barFilled_le (q : ℚ) (w : ℤ) (hw : 0 ≤ w) : barFilled q w ≤ w := by
  unfold barFilled roundQ
  have hc1 : (↑(max 0 (min 100 (truncQ q))) : ℚ) ≤ 100 := by
    exact_mod_cast max_le (by norm_num) (min_le_left _ _)
  have h2 : (↑(max 0 (min 100 (truncQ q))) : ℚ) / 100 * ↑w ≤ ↑w := by
    have h0 : (↑(max 0 (min 100 (truncQ q))) : ℚ) / 100 ≤ 1 := by
      rw [div_le_one (by norm_num)]
      exact hc1
    calc (↑(max 0 (min 100 (truncQ q))) : ℚ) / 100 * ↑w ≤ 1 * ↑w :=
          mul_le_mul_of_nonneg_right h0 (by exact_mod_cast hw)
      _ = ↑w := one_mul _
  calc ⌊(↑(max 0 (min 100 (truncQ q))) : ℚ)/100*↑w + 1/2⌋ ≤ ⌊(↑w:ℚ) + 1/2⌋ :=
        Int.floor_le_floor (by linarith)
    _ = w := by
        rw [add_comm, Int.floor_add_int]
        norm_num

theorem jsSlice_zero_length_le (s : Str) (e : ℤ) (he : 0 ≤ e) :
    (jsSlice s 0 e).length ≤ e.toNat := by
  unfold jsSlice
  dsimp only
  rw [if_neg (by omega : ¬ ((0:ℤ) < 0)), if_neg (by omega : ¬ e < 0)]
  rw [min_eq_left (by exact_mod_cast Nat.zero_le s.length)]
  split
  · rw [List.length_take, List.length_drop]
    omega
  · simp

theorem padPrimAux (s : Str) (w : ℕ) :
    (padRight s (w : ℤ)).length = w ∧ (padLeft s (w : ℤ)).length = w := by
  constructor
  · by_cases h : (w : ℤ) ≤ (s.length : ℤ)
    · rw [padRight, if_pos (by omega), jsSlice_zero_coe, List.length_take]
      omega
    · rw [padRight, if_neg (by omega), List.length_append, List.length_replicate]
      omega
  · by_cases h : (w : ℤ) ≤ (s.length : ℤ)
    · rw [padLeft, if_pos (by omega), jsSliceFrom_drop s w (by omega), List.length_drop]
      omega
    · rw [padLeft, if_neg (by omega), List.length_append, List.length_replicate]
      omega

theorem padLeft_length_int (s : Str) (w : ℤ) (hw : 0 ≤ w) : (padLeft s w).length = w.toNat := by
  obtain ⟨n, rfl⟩ := Int.eq_ofNat_of_zero_le hw
  rw [(padPrimAux s n).2, Int.toNat_natCast]

/-- **C6.** For every string `s` and width `w ≥ 0`, `padRight(s,w)` and
`padLeft(s,w)` both return exactly `w` characters; when `s` is longer
than `w`, `padRight` keeps the initial `w` characters (truncating at the
start of `s`) and `padLeft` the final `w` (truncating at the end);
otherwise the result is `s` padded with spaces, on the right for
`padRight` and on the left for `padLeft`. -/
theorem c6_pad_primitives (s : Str) (w : ℕ) :
    (padRight s (w : ℤ)).length = w ∧ (padLeft s (w : ℤ)).length = w ∧
    (w ≤ s.length → padRight s (w : ℤ) = s.take w ∧ padLeft s (w : ℤ) = s.drop (s.length - w)) ∧
    (s.length ≤ w → padRight s (w : ℤ) = s ++ List.replicate (w - s.length) ' ' ∧
      padLeft s (w : ℤ) = List.replicate (w - s.length) ' ' ++ s) := by
  by_cases h : (w : ℤ) ≤ (s.length : ℤ)
  · have hw : w ≤ s.length := by exact_mod_cast h
    have hpr : padRight s (w : ℤ) = s.take w := by
      rw [padRight, if_pos (by omega), jsSlice_zero_coe]
    have hpl : padLeft s (w : ℤ) = s.drop (s.length - w) := by
      rw [padLeft, if_pos (by omega), jsSliceFrom_drop s w hw]
    refine ⟨?_, ?_, fun _ => ⟨hpr, hpl⟩, fun hle => ?_⟩
    · rw [hpr, List.length_take]; omega
    · rw [hpl, List.length_drop]; omega
    · have heq : s.length = w := by omega
      constructor
      · rw [hpr, ← heq, List.take_length, Nat.sub_self, List.replicate_zero, List.append_nil]
      · rw [hpl, ← heq, Nat.sub_self, List.replicate_zero, List.drop_zero, List.nil_append]
  · have hw : s.length < w := by omega
    have ht : ((w : ℤ) - (s.length : ℤ)).toNat = w - s.length := by omega
    have hpr : padRight s (w : ℤ) = s ++ List.replicate (w - s.length) ' ' := by
      rw [padRight, if_neg (by omega), ht]
    have hpl : padLeft s (w : ℤ) = List.replicate (w - s.length) ' ' ++ s := by
      rw [padLeft, if_neg (by omega), ht]
    refine ⟨?_, ?_, fun hle => by omega, fun _ => ⟨hpr, hpl⟩⟩
    · rw [hpr, List.length_append, List.length_replicate]; omega
    · rw [hpl, List.length_append, List.length_replicate]; omega

/-- Concrete evaluation of the `padRight`/`padLeft` contract. -/
theorem c6_pad_primitives_witness :
    (padRight ("abc".data) ((2 : ℕ) : ℤ)).length = 2 ∧
    (padLeft ("abc".data) ((2 : ℕ) : ℤ)).length = 2 ∧
    padRight ("abc".data) ((2 : ℕ) : ℤ) = "ab".data ∧
    padLeft ("abc".data) ((2 : ℕ) : ℤ) = "bc".data := by
  have h := c6_pad_primitives ("abc".data) 2
  refine ⟨h.1, h.2.1, ?_, ?_⟩
  · rw [(h.2.2.1 (by decide)).1]; decide
  · rw [(h.2.2.1 (by decide)).2]; decide

/-- **C2.** For every entry whose `percentRemaining` is not strictly
equal to `0`, the rendered time field is blank — six spaces in tiny
mode, seven in non-tiny mode — whatever `resetTimeIso` holds. -/
theorem c2_time_blank (ctx : JsCtx) (layout : Layout) (name : Str) (iso : Option Str)
    (remaining : JSNum) (hz : jsStrictEqZero remaining = false) :
    addEntry ctx layout name iso remaining =
      if layout.maxWidth ≤ layout.tinyAt then
        [jsSlice (padRight name (layout.maxWidth - 2 - 6 - 2 - 4) ++ sep ++ List.replicate 6 ' ' ++
          sep ++ padLeft (numToStr (clampInt remaining 0 100) ++ "%".data) 4) 0 layout.maxWidth]
      else
        [jsSlice (padRight name (max 1 (barWidth layout.maxWidth - 2 - 7)) ++ sep ++
           List.replicate 7 ' ') 0 (barWidth layout.maxWidth),
         bar remaining (barWidth layout.maxWidth) ++ sep ++
           padLeft (numToStr (clampInt remaining 0 100) ++ "%".data) 4] := by
  have h6 : padLeft [] (6:ℤ) = List.replicate 6 ' ' := rfl
  have h7 : padLeft [] (7:ℤ) = List.replicate 7 ' ' := rfl
  by_cases ht : layout.maxWidth ≤ layout.tinyAt
  · simp [addEntry, ht, hz, barWidth, h6]
  · simp [addEntry, ht, hz, barWidth, h7]

/-- Concrete evaluation: at 37% remaining with a reset timestamp
present, both rendered lines carry no countdown text. -/
theorem c2_time_blank_witness :
    addEntry ctxA defaultLayout ("Claude".data) (some ("2099-01-01T00:00:00Z".data)) (.fin 37) =
      ["Claude".data ++ List.replicate 38 ' ',
       List.replicate 16 '█' ++ List.replicate 28 '░' ++ "   37%".data] := by
  rw [c2_time_blank ctxA defaultLayout ("Claude".data) (some ("2099-01-01T00:00:00Z".data))
      (.fin 37) (by rfl)]
  rw [if_neg (by decide)]
  have hw : barWidth defaultLayout.maxWidth = 44 := by decide
  rw [hw]
  have h16 : barFilled 37 44 = 16 := by norm_num [barFilled, truncQ, roundQ]
  rw [bar_fin, h16]
  decide

/-- **C5.** In non-tiny mode an entry renders exactly two lines:
line 2's bar consists of `round(clamp(percentRemaining,0,100)/100 *
barWidth)` filled glyphs followed by the remaining empty glyphs — in
total exactly `barWidth` glyphs — then the separator and the percentage
right-aligned in a 4-character cell, with
`barWidth = max(10, maxWidth - separatorWidth - percentColumnWidth)`;
and line 1 never exceeds `barWidth` characters (so the invariant holds
for every `maxWidth`, in particular 20, 32, 42, 50 and 80, whenever the
entry renders non-tiny). -/
theorem c5_bar_line (ctx : JsCtx) (layout : Layout) (name : Str) (iso : Option Str) (q : ℚ)
    (hnt : ¬ layout.maxWidth ≤ layout.tinyAt) :
    barWidth layout.maxWidth = max 10 (layout.maxWidth - 2 - 4) ∧
    (addEntry ctx layout name iso (.fin q)).length = 2 ∧
    ((addEntry ctx layout name iso (.fin q)).headD []).length ≤ (barWidth layout.maxWidth).toNat ∧
    (addEntry ctx layout name iso (.fin q)).getD 1 [] =
      List.replicate (barFilled q (barWidth layout.maxWidth)).toNat '█' ++
        List.replicate ((barWidth layout.maxWidth) - barFilled q (barWidth layout.maxWidth)).toNat '░' ++
        (sep ++ padLeft (numToStr (clampInt (.fin q) 0 100) ++ "%".data) 4) ∧
    (List.replicate (barFilled q (barWidth layout.maxWidth)).toNat '█' ++
       List.replicate ((barWidth layout.maxWidth) - barFilled q (barWidth layout.maxWidth)).toNat '░').length
      = (barWidth layout.maxWidth).toNat ∧
    (padLeft (numToStr (clampInt (.fin q) 0 100) ++ "%".data) 4).length = 4 := by
  have hbw0 : (0:ℤ) ≤ barWidth layout.maxWidth := by unfold barWidth; omega
  have hf0 := barFilled_nonneg q (barWidth layout.maxWidth) hbw0
  have hfle := barFilled_le q (barWidth layout.maxWidth) hbw0
  refine ⟨rfl, ?_, ?_, ?_, ?_, ?_⟩
  · simp [addEntry, hnt]
  · simp only [addEntry]
    simp [hnt]
    exact jsSlice_zero_length_le _ (barWidth layout.maxWidth) hbw0
  · simp [addEntry, hnt]
    rw [bar_fin]
    simp [List.append_assoc]
  · rw [List.length_append, List.length_replicate, List.length_replicate]
    omega
  · rw [padLeft_length_int _ 4 (by norm_num)]
    rfl

/-- Concrete evaluation of the non-tiny bar-line geometry at the
default layout and 37% remaining. -/
theorem c5_bar_line_witness :
    barWidth defaultLayout.maxWidth = max 10 (defaultLayout.maxWidth - 2 - 4) ∧
    (addEntry ctxA defaultLayout ("Claude".data) none (.fin 37)).length = 2 ∧
    ((addEntry ctxA defaultLayout ("Claude".data) none (.fin 37)).headD []).length ≤
      (barWidth defaultLayout.maxWidth).toNat ∧
    (addEntry ctxA defaultLayout ("Claude".data) none (.fin 37)).getD 1 [] =
      List.replicate (barFilled 37 (barWidth defaultLayout.maxWidth)).toNat '█' ++
        List.replicate ((barWidth defaultLayout.maxWidth) -
          barFilled 37 (barWidth defaultLayout.maxWidth)).toNat '░' ++
        (sep ++ padLeft (numToStr (clampInt (.fin 37) 0 100) ++ "%".data) 4) ∧
    (List.replicate (barFilled 37 (barWidth defaultLayout.maxWidth)).toNat '█' ++
       List.replicate ((barWidth defaultLayout.maxWidth) -
         barFilled 37 (barWidth defaultLayout.maxWidth)).toNat '░').length
      = (barWidth defaultLayout.maxWidth).toNat ∧
    (padLeft (numToStr (clampInt (.fin 37) 0 100) ++ "%".data) 4).length = 4 :=
  c5_bar_line ctxA defaultLayout ("Claude".data) none 37 (by decide)

/-- **C3 (counterexample).** For a depleted entry (`percentRemaining =
0`) with no `resetTimeIso`, the rendered time field is the right-aligned
placeholder `"-"`, not an all-space blank field as the claim states. -/
theorem c3_counterexample :
    padLeft (formatResetCountdown ctxA none) 7 = List.replicate 6 ' ' ++ "-".data ∧
    padLeft (formatResetCountdown ctxA none) 7 ≠ List.replicate 7 ' ' := by
  constructor
  · rfl
  · decide

/-- **C3 (amended).** For every entry with `percentRemaining = 0` and a
missing `resetTimeIso`, the missing timestamp is recovered locally: the
time field renders the placeholder `"-"` right-aligned in the time
column (spaces followed by a dash), and rendering succeeds with no
error. -/
theorem c3_missing_timestamp_dash (ctx : JsCtx) (layout : Layout) (name : Str) :
    addEntry ctx layout name none (.fin 0) =
      if layout.maxWidth ≤ layout.tinyAt then
        [jsSlice (padRight name (layout.maxWidth - 2 - 6 - 2 - 4) ++ sep ++
          (List.replicate 5 ' ' ++ "-".data) ++ sep ++ padLeft ("0%".data) 4) 0 layout.maxWidth]
      else
        [jsSlice (padRight name (max 1 (barWidth layout.maxWidth - 2 - 7)) ++ sep ++
           (List.replicate 6 ' ' ++ "-".data)) 0 (barWidth layout.maxWidth),
         bar (.fin 0) (barWidth layout.maxWidth) ++ sep ++ padLeft ("0%".data) 4] := by
  have hz : jsStrictEqZero (.fin 0) = true := rfl
  have hcd : formatResetCountdown ctx none = "-".data := rfl
  have hd6 : padLeft ("-".data) (6:ℤ) = List.replicate 5 ' ' ++ "-".data := rfl
  have hlen : (("-".data : Str).length : ℤ) = 1 := rfl
  have hd7 : padLeft ("-".data) (7:ℤ) = List.replicate 6 ' ' ++ "-".data := rfl
  have hm7 : max ((("-".data : Str).length : ℤ)) 7 = 7 := rfl
  have hc : numToStr (clampInt (.fin 0) 0 100) ++ "%".data = "0%".data := rfl
  by_cases ht : layout.maxWidth ≤ layout.tinyAt
  · simp [addEntry, ht, hz, barWidth, hcd, hd6, hc]
  · simp [addEntry, ht, hz, barWidth, hcd, hc, hm7, hd7]

/-- **C10.** For every entry whose raw `percentRemaining` lies strictly
between 0 and 1, the rendered percentage is `"0%"` (truncation then
clamping maps it to 0) while the time field stays blank, because the
countdown is keyed on strict equality of the raw value with 0. -/
theorem c10_fractional_percent (ctx : JsCtx) (layout : Layout) (name : Str)
    (iso : Option Str) (q : ℚ) (h0 : 0 < q) (h1 : q < 1) :
    addEntry ctx layout name iso (.fin q) =
      if layout.maxWidth ≤ layout.tinyAt then
        [jsSlice (padRight name (layout.maxWidth - 2 - 6 - 2 - 4) ++ sep ++ List.replicate 6 ' ' ++
          sep ++ padLeft ("0%".data) 4) 0 layout.maxWidth]
      else
        [jsSlice (padRight name (max 1 (barWidth layout.maxWidth - 2 - 7)) ++ sep ++
           List.replicate 7 ' ') 0 (barWidth layout.maxWidth),
         bar (.fin q) (barWidth layout.maxWidth) ++ sep ++ padLeft ("0%".data) 4] := by
  have hz : jsStrictEqZero (.fin q) = false := by
    simp [jsStrictEqZero]
    exact ne_of_gt h0
  have htr : truncQ q = 0 := by
    unfold truncQ
    rw [if_pos h0.le]
    rw [Int.floor_eq_zero_iff]
    exact ⟨h0.le, h1⟩
  have hcl : clampInt (.fin q) 0 100 = .fin 0 := by
    rw [clampInt_fin, htr]
    norm_num
  have hc : numToStr (.fin 0) ++ "%".data = "0%".data := rfl
  have h6 : padLeft [] (6:ℤ) = List.replicate 6 ' ' := rfl
  have h7 : padLeft [] (7:ℤ) = List.replicate 7 ' ' := rfl
  by_cases ht : layout.maxWidth ≤ layout.tinyAt
  · simp [addEntry, ht, hz, barWidth, hcl, hc, h6]
  · simp [addEntry, ht, hz, barWidth, hcl, hc, h7]

/-- Concrete evaluation at `percentRemaining = 1/2`: percentage cell
`"  0%"`, time field blank. -/
theorem c10_fractional_percent_witness :
    addEntry ctxA defaultLayout ("Claude".data) (some ("2099-01-01T00:00:00Z".data)) (.fin (1/2)) =
      ["Claude".data ++ List.replicate 38 ' ',
       List.replicate 44 '░' ++ "    0%".data] := by
  rw [c10_fractional_percent ctxA defaultLayout ("Claude".data)
      (some ("2099-01-01T00:00:00Z".data)) (1/2) (by norm_num) (by norm_num)]
  rw [if_neg (by decide)]
  have hw : barWidth defaultLayout.maxWidth = 44 := by decide
  rw [hw]
  have h0 : barFilled (1/2) 44 = 0 := by norm_num [barFilled, truncQ, roundQ]
  rw [bar_fin, h0]
  decide

/-- **C4 (counterexample).** `clampInt` does not clamp NaN: the clamped
value is NaN again and the rendered percentage cell is `"NaN%"`, not a
value in `[0, 100]`. -/
theorem c4_counterexample :
    clampInt .nan 0 100 = .nan ∧
    padLeft (numToStr (clampInt .nan 0 100) ++ "%".data) 4 = "NaN%".data := by
  constructor
  · rfl
  · decide

/-- **C4 (amended).** For every `percentRemaining` other than NaN —
including every finite value outside `[0,100]` and both infinities —
the value rendered by the formatter is first clamped to an integer in
`[0,100]`; rendering itself is total and never fails (for NaN the clamp
is the identity and the cell shows `"NaN%"`). -/
theorem c4_clamped (p : JSNum) (hp : p ≠ .nan) :
    clampInt p 0 100 = .fin (jsClampZ p : ℚ) ∧ 0 ≤ jsClampZ p ∧ jsClampZ p ≤ 100 := by
  cases p with
  | nan => exact absurd rfl hp
  | posInf =>
    refine ⟨?_, by norm_num [jsClampZ], by norm_num [jsClampZ]⟩
    show JSNum.fin (max 0 100) = _
    norm_num [jsClampZ]
  | negInf =>
    refine ⟨?_, by norm_num [jsClampZ], by norm_num [jsClampZ]⟩
    show JSNum.fin (max 0 0) = _
    norm_num [jsClampZ]
  | fin q =>
    exact ⟨clampInt_fin q, le_max_left 0 _, max_le (by norm_num) (min_le_left _ _)⟩

/-- Concrete evaluation at the out-of-range input 1000: the rendered
percentage is clamped to 100. -/
theorem c4_clamped_witness :
    clampInt (.fin 1000) 0 100 = .fin (jsClampZ (.fin 1000) : ℚ) ∧
    0 ≤ jsClampZ (.fin 1000) ∧ jsClampZ (.fin 1000) ≤ 100 ∧ jsClampZ (.fin 1000) = 100 := by
  have h := c4_clamped (.fin 1000) (by decide)
  exact ⟨h.1, h.2.1, h.2.2, by decide⟩

/-- **C1 (counterexample).** A structurally valid snapshot generated
right now (`now - generatedAt = 0 ≤ 24h`, numeric `generatedAt`,
snapshot present) is nevertheless refreshed, because its recorded
`_meta.source` differs from the requested source URL — a condition the
claim's "no other condition" excludes. -/
theorem c1_counterexample :
    isSnapshot c1Snap = true ∧
    shouldRefresh (some c1Snap) MODELSDEV_API_URL 0 = true ∧
    claimStale (some c1Snap) 0 = false := by
  refine ⟨rfl, rfl, ?_⟩
  have h1 : claimStale (some c1Snap) 0 = decide ((0:ℚ) - 0 > MODELSDEV_CACHE_TTL_MS) := rfl
  rw [h1, decide_eq_false_iff_not]
  unfold MODELSDEV_CACHE_TTL_MS
  norm_num

/-- **C1 (amended).** A loaded snapshot is refreshed iff it is absent,
its `generatedAt` is not numeric, it is older than 24h, **or** its
recorded source URL differs from the requested source URL; no further
condition triggers a refresh. -/
theorem c1_staleness (snapshot : Option Json) (sourceUrl : String) (now : ℚ) :
    shouldRefresh snapshot sourceUrl now =
      (claimStale snapshot now || sourceMismatch snapshot sourceUrl) := by
  cases snapshot with
  | none => rfl
  | some s =>
    unfold shouldRefresh claimStale sourceMismatch
    cases hg : jsGet (jsGet s "_meta") "generatedAt" with
    | num g =>
      cases hs : jsGet (jsGet s "_meta") "source" with
      | str src =>
        by_cases he : src = sourceUrl
        · simp [hg, hs, he]
        · simp [hg, hs, he]
      | undefined => simp [hg, hs]
      | null => simp [hg, hs]
      | bool b => simp [hg, hs]
      | num g2 => simp [hg, hs]
      | arr xs => simp [hg, hs]
      | obj fs => simp [hg, hs]
    | undefined => simp [hg]
    | null => simp [hg]
    | bool b => simp [hg]
    | str t => simp [hg]
    | arr xs => simp [hg]
    | obj fs => simp [hg]

/-- **C7.** A refresh leaves `SNAPSHOT` exactly as it was unless every
step succeeded end-to-end (fetch resolved, `response.ok`, JSON parsed,
normalization non-empty, cache write succeeded), in which case the
snapshot becomes the newly built one; the `catch {}` swallows every
failure, so the result is always a value and no error reaches the
caller. -/
theorem c7_refresh_failure_preserves (snap : Option Json) (url : String) (now : ℚ)
    (outcome : FetchOutcome) (writeOk : Bool) :
    refreshBody snap url now outcome writeOk = snap ∨
    (∃ j s, outcome = .payload j ∧ buildSnapshotFromApi j url now = some s ∧
      writeOk = true ∧ refreshBody snap url now outcome writeOk = some s) := by
  cases outcome with
  | netError => exact Or.inl rfl
  | notOk => exact Or.inl rfl
  | jsonError => exact Or.inl rfl
  | payload j =>
    cases hb : buildSnapshotFromApi j url now with
    | none =>
      left
      simp [refreshBody, refreshTry, hb]
    | some s =>
      cases writeOk with
      | false =>
        left
        simp [refreshBody, refreshTry, hb]
      | true =>
        right
        refine ⟨j, s, rfl, hb, rfl, ?_⟩
        simp [refreshBody, refreshTry, hb]

/-- **C8.** When a refresh is already in flight, a further refresh
request returns that same promise and leaves the state unchanged — in
particular `fetchCount` does not grow, so no duplicate network call is
issued, and the caller holds the identical promise and thus observes
the same eventual outcome. -/
theorem c8_single_flight (st : PricingState) (p : ℕ) (h : st.inFlight = some p) :
    requestRefresh st = (p, st) ∧ (requestRefresh st).2.fetchCount = st.fetchCount := by
  unfold requestRefresh
  rw [h]
  exact ⟨rfl, rfl⟩

/-- Concrete evaluation: three refresh requests issued back to back
share one promise and one network fetch. -/
theorem c8_single_flight_witness :
    requestRefresh ((requestRefresh initialPricingState).2) =
      ((requestRefresh initialPricingState).1, (requestRefresh initialPricingState).2) ∧
    (requestRefresh ((requestRefresh initialPricingState).2)).2.fetchCount = 1 ∧
    (requestRefresh ((requestRefresh initialPricingState).2)).1 =
      (requestRefresh initialPricingState).1 := by
  have h := c8_single_flight ((requestRefresh initialPricingState).2)
      ((requestRefresh initialPricingState).1) rfl
  refine ⟨h.1, ?_, ?_⟩
  · rw [h.1]
    rfl
  · rw [h.1]

theorem requestRefresh_snapshot (st : PricingState) :
    ((requestRefresh st).2).snapshot = st.snapshot := by
  unfold requestRefresh
  cases st.inFlight <;> rfl

theorem ensureLoaded_of_snapshot (env : PricingEnv) (st : PricingState) (s : Json)
    (h : st.snapshot = some s) : ensureLoaded env st = (s, st, 0) := by
  unfold ensureLoaded
  rw [h]

theorem ensureLoaded_memo (env : PricingEnv) (st : PricingState) :
    ((ensureLoaded env st).2.1).snapshot = some (ensureLoaded env st).1 := by
  unfold ensureLoaded
  cases h : st.snapshot with
  | some s => simp [h]
  | none =>
    simp only [h]
    have hcfg : resolvePricingConfig env.validateUrl none = ("network", MODELSDEV_API_URL) := rfl
    rw [hcfg]
    rw [if_neg (by decide : ¬ ("network", MODELSDEV_API_URL).1 = "bundled")]
    dsimp only
    rcases hc : readSnapshotFromFile env.cacheFile with _ | c <;> dsimp only <;> split <;>
      simp [requestRefresh_snapshot]

/-- **C9 (counterexample).** With an explicit `PricingSourceConfig`,
every lookup re-reads the cache file: the first and the second call
each perform one file read (the claim asserts the second performs
none). -/
theorem c9_config_rereads :
    (ensureLoadedWithConfig env9 initialPricingState (some cfg9)).2.2 = 1 ∧
    (ensureLoadedWithConfig env9
      ((ensureLoadedWithConfig env9 initialPricingState (some cfg9)).2.1) (some cfg9)).2.2 = 1 :=
  ⟨rfl, rfl⟩

/-- **C9 (amended).** Without an explicit config, the second of two
lookups within the TTL window (no file or network change in between)
returns the very snapshot memoized by the first and performs no file
read at all; with an explicit `PricingSourceConfig`, every lookup
performs at least one file read (no memoization). -/
theorem c9_memoized_lookup :
    (∀ (env : PricingEnv) (st : PricingState),
      ensureLoadedWithConfig env ((ensureLoadedWithConfig env st none).2.1) none =
        ((ensureLoadedWithConfig env st none).1,
         (ensureLoadedWithConfig env st none).2.1, 0)) ∧
    (∀ (env : PricingEnv) (st : PricingState) (cfg : PricingSourceConfig),
      1 ≤ (ensureLoadedWithConfig env st (some cfg)).2.2) := by
  constructor
  · intro env st
    show ensureLoaded env ((ensureLoaded env st).2.1) = _
    exact ensureLoaded_of_snapshot env _ _ (ensureLoaded_memo env st)
  · intro env st cfg
    unfold ensureLoadedWithConfig
    dsimp only
    split
    · exact le_refl 1
    · rcases h : readSnapshotFromFile env.cacheFile with _ | c <;> simp [h]
